import Mathlib

/-!
Verification development for the OpenSSL DRBG core and trace facility.

Part A embeds crypto/trace/trace.c (src/unnamed/part_000): the trace
category catalog, the per-category channel table, and the public
setters/queries.

Part B embeds the DRBG engine whose state layout and contracts are given
by crypto/rand/rand_lcl.h; the implementing C files (drbg_lib.c,
rand_lib.c, drbg_ctr.c, ...) are not part of the available sources, so
their behaviour is modelled from the specification (marked on each
definition).
-/

namespace OpenSSL

/-! ## Part A: trace.c -/

/-- Entry of the category table: struct trace_category_st (name, num). -/
structure trace_category_st where
  name : String
  num : Int
deriving DecidableEq

/-- Modelled from the spec: the numeric values OSSL_TRACE_CATEGORY_ANY ..
OSSL_TRACE_CATEGORY_BN_CTX come from the public header openssl/trace.h,
which is not among the available sources; they are consecutive 0..12 in
the order of the trace_categories initializer, with
OSSL_TRACE_CATEGORY_NUM = 13. -/
def OSSL_TRACE_CATEGORY_ANY : Int := 0

/-- Modelled from the spec: see OSSL_TRACE_CATEGORY_ANY. -/
def OSSL_TRACE_CATEGORY_NUM : Int := 13

/-- The trace_categories[] table of trace.c, in source order. -/
def trace_categories : List trace_category_st :=
  [⟨"ANY", 0⟩, ⟨"TRACE", 1⟩, ⟨"INIT", 2⟩, ⟨"TLS", 3⟩,
   ⟨"TLS_CIPHER", 4⟩, ⟨"ENGINE_CONF", 5⟩, ⟨"ENGINE_TABLE", 6⟩,
   ⟨"ENGINE_REF_COUNT", 7⟩, ⟨"PKCS5V2", 8⟩, ⟨"PKCS12_KEYGEN", 9⟩,
   ⟨"PKCS12_DECRYPT", 10⟩, ⟨"X509V3_POLICY", 11⟩, ⟨"BN_CTX", 12⟩]

/-- Case-insensitive string equality, embedding strcasecmp(a, b) == 0. -/
def strcaseeq (a b : String) : Bool :=
  a.data.map Char.toLower == b.data.map Char.toLower

/-- OSSL_trace_get_category_name: first table entry with matching num,
NULL (none) if not found. -/
def OSSL_trace_get_category_name (num : Int) : Option String :=
  (trace_categories.find? (fun c => c.num == num)).map trace_category_st.name

/-- OSSL_trace_get_category_num: first table entry whose name matches
case-insensitively, -1 if not found. -/
def OSSL_trace_get_category_num (name : String) : Int :=
  match trace_categories.find? (fun c => strcaseeq name c.name) with
  | some c => c.num
  | none => -1

/-- The two channel kinds of the trace_channels entries. -/
inductive channel_type where
  | t_channel : channel_type
  | t_callback : channel_type
deriving DecidableEq

/-- One entry of the trace_channels[] table.  A BIO pointer is modelled
as an Option Nat (none = NULL); the prefix and suffix strings are
Option String. -/
structure trace_channel_st where
  type : channel_type
  bio : Option Nat
  pfx : Option String
  sfx : Option String
deriving DecidableEq

/-- The trace_channels[] table.  It is indexed over all of Int rather
than only 0..OSSL_TRACE_CATEGORY_NUM-1 so that the out-of-bounds
accesses the C code can perform (see the set_pfx/set_sfx guard bug)
stay representable. -/
def TraceSt : Type := Int → trace_channel_st

/-- The all-NULL initial table ({ 0, NULL, NULL, NULL }). -/
def initTraceSt : TraceSt :=
  fun _ => ⟨channel_type.t_channel, none, none, none⟩

/-- set_trace_data of trace.c, with the attach/detach logging callbacks
and the free/strdup bookkeeping elided (strdup failure is not modelled,
so the function always succeeds).  A parameter value none means the C
caller passed a NULL pointer for that slot (leave the field alone);
some v means the slot is updated to v, where v = none clears it.  The
net effect in the C source is exactly this field replacement. -/
def set_trace_data (st : TraceSt) (category : Int)
    (channel : Option (Option Nat)) (p s : Option (Option String)) : TraceSt :=
  fun i =>
    if i = category then
      { type := (st i).type
        bio := match channel with
               | none => (st i).bio
               | some cNew => cNew
        pfx := match p with
               | none => (st i).pfx
               | some pNew => pNew
        sfx := match s with
               | none => (st i).sfx
               | some sNew => sNew }
    else st i

/-- OSSL_trace_set_channel: range-check the category, install the BIO,
mark the entry t_channel. -/
def OSSL_trace_set_channel (st : TraceSt) (category : Int)
    (channel : Option Nat) : Bool × TraceSt :=
  if category < 0 ∨ OSSL_TRACE_CATEGORY_NUM ≤ category then (false, st)
  else
    let st1 := set_trace_data st category (some channel) none none
    (true, fun i =>
      if i = category then { st1 i with type := channel_type.t_channel }
      else st1 i)

/-- OSSL_trace_set_callback: a non-NULL callback is wrapped in a fresh
internal BIO (modelled by reusing the callback id as the BIO id); the
entry is marked t_callback.  Allocation failure is not modelled. -/
def OSSL_trace_set_callback (st : TraceSt) (category : Int)
    (callback : Option Nat) : Bool × TraceSt :=
  if category < 0 ∨ OSSL_TRACE_CATEGORY_NUM ≤ category then (false, st)
  else
    let st1 := set_trace_data st category (some callback) none none
    (true, fun i =>
      if i = category then { st1 i with type := channel_type.t_callback }
      else st1 i)

/-- OSSL_trace_set_prefix (renamed: Lean reserves the word).  The guard
is transcribed exactly as written in the source:
`if (category >= 0 || category < OSSL_TRACE_CATEGORY_NUM)` — note the
`||` where the sibling setters use the conjunctive range check — so the
`rv = 0` branch is unreachable and set_trace_data runs at whatever
index was passed. -/
def OSSL_trace_set_pfx (st : TraceSt) (category : Int)
    (p : Option String) : Bool × TraceSt :=
  if 0 ≤ category ∨ category < OSSL_TRACE_CATEGORY_NUM then
    (true, set_trace_data st category none (some p) none)
  else (false, st)

/-- OSSL_trace_set_suffix (renamed like OSSL_trace_set_pfx), with the
same always-true guard as the source. -/
def OSSL_trace_set_sfx (st : TraceSt) (category : Int)
    (s : Option String) : Bool × TraceSt :=
  if 0 ≤ category ∨ category < OSSL_TRACE_CATEGORY_NUM then
    (true, set_trace_data st category none none (some s))
  else (false, st)

/-- ossl_trace_get_category: -1 when out of range, the category itself
when it has a BIO attached, otherwise OSSL_TRACE_CATEGORY_ANY. -/
def ossl_trace_get_category (st : TraceSt) (category : Int) : Int :=
  if category < 0 ∨ OSSL_TRACE_CATEGORY_NUM ≤ category then -1
  else if (st category).bio.isSome then category
  else OSSL_TRACE_CATEGORY_ANY

/-- OSSL_trace_enabled: resolve the category, then test whether the
resolved entry has a BIO. -/
def OSSL_trace_enabled (st : TraceSt) (category : Int) : Bool :=
  (st (ossl_trace_get_category st category)).bio.isSome

/-- OSSL_trace_begin: resolve the category and read its channel and
prefix; the returned pair is (channel returned to the caller, prefix
consulted for the header).  The BIO_puts/BIO_ctrl output and the
trace-lock manipulation are I/O side effects and are elided. -/
def OSSL_trace_begin (st : TraceSt) (category : Int) :
    Option Nat × Option String :=
  let c := ossl_trace_get_category st category
  ((st c).bio, (st c).pfx)

/-! ## Part B: the DRBG engine

State layout, method table and field contracts are those of
crypto/rand/rand_lcl.h; the operation bodies are modelled from the
specification (sections 4.1-4.5), because drbg_lib.c and rand_lib.c are
not among the available sources. -/

/-- DRBG status values (enum drbg_status_e of rand_lcl.h). -/
inductive DRBG_STATUS where
  | DRBG_UNINITIALISED : DRBG_STATUS
  | DRBG_READY : DRBG_STATUS
  | DRBG_ERROR : DRBG_STATUS
deriving DecidableEq

/-- The DRBG method table (struct rand_drbg_method_st of rand_lcl.h).
Modelled from the spec: the three implementations (CTR, Hash, HMAC;
drbg_ctr.c etc. are not among the available sources) are abstract pure
functions over an opaque variant-state type V, per section 4.2:
instantiate derives the initial working state deterministically from
entropy, nonce and personalization; reseed mixes entropy and additional
input into the state; generate maps state, requested length and
additional input to an output block plus the forward-mutated state;
uninstantiate zeroizes the state.  Each fallible operation returns
none on failure. -/
structure RAND_DRBG_METHOD (V : Type) where
  instantiate : List Nat → List Nat → List Nat → Option V
  reseed : V → List Nat → List Nat → Option V
  generate : V → Nat → List Nat → Option (List Nat × V)
  uninstantiate : V → V

/-- The DRBG instance state (struct rand_drbg_st of rand_lcl.h),
restricted to the lifecycle fields the claims are about.  The lock,
the pools, the strength/length-bound configuration other than
max_request, and the ex_data are omitted; the union of variant states
is the type parameter V (field vdata models the data union). -/
structure RAND_DRBG (V : Type) where
  state : DRBG_STATUS
  max_request : Nat
  reseed_gen_counter : Nat
  reseed_interval : Nat
  reseed_time : Nat
  reseed_time_interval : Nat
  fork_count : Nat
  reseed_prop_counter : Nat
  reseed_next_counter : Nat
  vdata : V

/-- Modelled from the spec: the per-call environment a DRBG operation
observes — the wall-clock time, the process-wide rand_fork_count
global, the live reseed_prop_counter of the parent instance (none when
the instance has no live parent), and the entropy/nonce buffers the
registered entropy-source collaborator returns for this call. -/
structure DrbgEnv where
  now : Nat
  fork_count : Nat
  parentProp : Option Nat
  entropy : List Nat
  nonce : List Nat

/-- Modelled from the spec: the Reseed Policy predicate of section 4.4
(the corresponding check lives in drbg_lib.c, which is not among the
available sources).  Reseed is required when any of the four
conditions holds; the parent comparison is the strictly-monotonic
"advanced past the snapshot" comparison the spec prescribes. -/
def reseed_required (drbg : RAND_DRBG V) (now fc : Nat)
    (pProp : Option Nat) : Bool :=
  (decide (drbg.reseed_interval ≠ 0) &&
     decide (drbg.reseed_interval < drbg.reseed_gen_counter)) ||
  (decide (drbg.reseed_time_interval ≠ 0) &&
     decide (drbg.reseed_time_interval < now - drbg.reseed_time)) ||
  decide (drbg.fork_count ≠ fc) ||
  (match pProp with
   | some p => decide (drbg.reseed_next_counter < p)
   | none => false)

/-- Modelled from the spec: RAND_DRBG_instantiate (section 4.3; the
body lives in drbg_lib.c, not among the available sources).  On
success: set reseed_gen_counter = 1, reseed_time = now, snapshot
fork_count from the fork-generation global, sync the parent-propagation
snapshot, transition to READY.  On failure the instance moves to
ERROR. -/
def drbg_instantiate (meth : RAND_DRBG_METHOD V) (drbg : RAND_DRBG V)
    (pers : List Nat) (env : DrbgEnv) : Bool × RAND_DRBG V :=
  match meth.instantiate env.entropy env.nonce pers with
  | none => (false, { drbg with state := DRBG_STATUS.DRBG_ERROR })
  | some v =>
      (true, { drbg with
                 vdata := v
                 state := DRBG_STATUS.DRBG_READY
                 reseed_gen_counter := 1
                 reseed_time := env.now
                 fork_count := env.fork_count
                 reseed_prop_counter := 1
                 reseed_next_counter := env.parentProp.getD 0 })

/-- Modelled from the spec: RAND_DRBG_reseed (section 4.3; body in
drbg_lib.c, not among the available sources).  Callable only while
READY; on success reset reseed_gen_counter = 1 and reseed_time = now,
re-snapshot fork_count (rand_lcl.h: fork_count stores the global "as of
when we last reseeded"), bump reseed_prop_counter for the hierarchy,
and sync reseed_next_counter to the parent's live counter.  An
entropy/algorithm failure moves the instance to ERROR. -/
def drbg_reseed (meth : RAND_DRBG_METHOD V) (drbg : RAND_DRBG V)
    (adin : List Nat) (env : DrbgEnv) : Bool × RAND_DRBG V :=
  if drbg.state ≠ DRBG_STATUS.DRBG_READY then (false, drbg)
  else
    match meth.reseed drbg.vdata env.entropy adin with
    | none => (false, { drbg with state := DRBG_STATUS.DRBG_ERROR })
    | some v =>
        (true, { drbg with
                   vdata := v
                   reseed_gen_counter := 1
                   reseed_time := env.now
                   fork_count := env.fork_count
                   reseed_prop_counter := drbg.reseed_prop_counter + 1
                   reseed_next_counter :=
                     env.parentProp.getD drbg.reseed_next_counter })

/-- Modelled from the spec: the generate step proper — invoke the
variant's generate and increment reseed_gen_counter on success; an
internal algorithm failure is fatal and forces ERROR (section 7(d)). -/
def drbg_generate_step (meth : RAND_DRBG_METHOD V) (d : RAND_DRBG V)
    (outlen : Nat) (adin : List Nat) : Option (List Nat) × RAND_DRBG V :=
  match meth.generate d.vdata outlen adin with
  | none => (none, { d with state := DRBG_STATUS.DRBG_ERROR })
  | some (out, v) =>
      (some out, { d with
                     vdata := v
                     reseed_gen_counter := d.reseed_gen_counter + 1 })

/-- Modelled from the spec: RAND_DRBG_generate (section 4.3; body in
drbg_lib.c, not among the available sources).  State-misuse and
input-bounds errors (not READY; outlen > max_request) are rejected
before touching state; otherwise the Reseed Policy is consulted and a
mandated reseed runs transparently first, its failure surfacing as
generate failure; finally the variant generates and
reseed_gen_counter is incremented. -/
def drbg_generate (meth : RAND_DRBG_METHOD V) (drbg : RAND_DRBG V)
    (outlen : Nat) (adin : List Nat) (env : DrbgEnv) :
    Option (List Nat) × RAND_DRBG V :=
  if drbg.state ≠ DRBG_STATUS.DRBG_READY then (none, drbg)
  else if drbg.max_request < outlen then (none, drbg)
  else if reseed_required drbg env.now env.fork_count env.parentProp then
    match drbg_reseed meth drbg adin env with
    | (false, d1) => (none, d1)
    | (true, d1) => drbg_generate_step meth d1 outlen adin
  else drbg_generate_step meth drbg outlen adin

/-- Modelled from the spec: RAND_DRBG_uninstantiate (section 4.3; body
in drbg_lib.c, not among the available sources).  Zeroizes the variant
state via the method, resets the counter and returns the instance to
UNINITIALISED. -/
def drbg_uninstantiate (meth : RAND_DRBG_METHOD V) (drbg : RAND_DRBG V) :
    RAND_DRBG V :=
  { drbg with
      vdata := meth.uninstantiate drbg.vdata
      state := DRBG_STATUS.DRBG_UNINITIALISED
      reseed_gen_counter := 0 }

/-- A sequence of generate calls: each list element is (requested
length, additional input, per-call environment); the outputs are
collected in order together with the final instance state. -/
def drbg_generate_seq (meth : RAND_DRBG_METHOD V) (drbg : RAND_DRBG V) :
    List (Nat × List Nat × DrbgEnv) →
    List (Option (List Nat)) × RAND_DRBG V
  | [] => ([], drbg)
  | (n, adin, env) :: rest =>
      let r := drbg_generate meth drbg n adin env
      let rs := drbg_generate_seq meth r.2 rest
      (r.1 :: rs.1, rs.2)

/-- The length contract of section 4.2: a variant's generate returns
exactly the requested number of bytes when it succeeds. -/
def MethodOk (meth : RAND_DRBG_METHOD V) : Prop :=
  ∀ v n a r, meth.generate v n a = some r → r.1.length = n

/-! ## Part B continued: the entropy pool

Struct rand_pool_st is in rand_lcl.h; the operation bodies
(rand_pool_new, rand_pool_attach, rand_pool_add, rand_pool_free of
rand_lib.c) are modelled from spec section 4.1. -/

/-- The random pool (struct rand_pool_st of rand_lcl.h).  The C len
field is buffer.length here. -/
structure rand_pool_st where
  buffer : List Nat
  attached : Bool
  min_len : Nat
  max_len : Nat
  entropy : Nat
  entropy_requested : Nat
deriving DecidableEq

/-- The pool invariant of section 3: len ≤ max_len and
entropy ≤ 8*len. -/
def pool_inv (p : rand_pool_st) : Prop :=
  p.buffer.length ≤ p.max_len ∧ p.entropy ≤ 8 * p.buffer.length

/-- Modelled from the spec: allocate(min_len, max_len) — a fresh empty
owned pool (rand_pool_new of rand_lib.c is not among the available
sources). -/
def rand_pool_new (minl maxl : Nat) : rand_pool_st :=
  { buffer := [], attached := false, min_len := minl, max_len := maxl,
    entropy := 0, entropy_requested := 0 }

/-- Modelled from the spec: attach(buffer, len) — a pool wrapping
caller memory, marked attached, with the caller's entropy credit
(rand_pool_attach of rand_lib.c is not among the available sources).
The buffer is full, so len = max_len = the attached length. -/
def rand_pool_attach (buf : List Nat) (ent : Nat) : rand_pool_st :=
  { buffer := buf, attached := true, min_len := buf.length,
    max_len := buf.length, entropy := ent, entropy_requested := 0 }

/-- Modelled from the spec: add(bytes, entropy_bits) appends the bytes
and accumulates the entropy credit, failing — with the pool untouched —
whenever the appended length would exceed max_len (rand_pool_add of
rand_lib.c is not among the available sources). -/
def rand_pool_add (p : rand_pool_st) (bytes : List Nat) (ent : Nat) :
    Option rand_pool_st :=
  if p.max_len < p.buffer.length + bytes.length then none
  else some { p with buffer := p.buffer ++ bytes,
                     entropy := p.entropy + ent }

/-- Modelled from the spec: release() zeroes and frees an owned pool
and leaves an attached one untouched (rand_pool_free of rand_lib.c is
not among the available sources); the surviving value of an owned pool
is modelled as emptied. -/
def rand_pool_release (p : rand_pool_st) : rand_pool_st :=
  if p.attached then p
  else { p with buffer := [], entropy := 0, entropy_requested := 0 }

/-- A pool operation on an existing pool: an add (which leaves the pool
unchanged when it fails) or a release. -/
inductive PoolOp where
  | add (bytes : List Nat) (ent : Nat) : PoolOp
  | release : PoolOp

/-- Apply one pool operation; a failed add leaves the pool unchanged. -/
def applyPoolOp (p : rand_pool_st) : PoolOp → rand_pool_st
  | PoolOp.add bytes ent => (rand_pool_add p bytes ent).getD p
  | PoolOp.release => rand_pool_release p

/-- Apply a sequence of pool operations. -/
def applyPoolOps (p : rand_pool_st) (ops : List PoolOp) : rand_pool_st :=
  ops.foldl applyPoolOp p

/-- The entropy-source crediting discipline (spec glossary: entropy is
credited to raw input bytes, hence at most 8 bits per byte): an add
operation is well-credited when its entropy claim does not exceed
8 bits per added byte. -/
def poolOpCredOk : PoolOp → Prop
  | PoolOp.add bytes ent => ent ≤ 8 * bytes.length
  | PoolOp.release => True

/-! ## Concrete evaluation instances

Fixed small inputs on which the generic theorems are evaluated. -/

/-- A concrete channel table with a channel on ANY only: used to
evaluate the fallback behaviour. -/
def traceStA : TraceSt := (OSSL_trace_set_channel initTraceSt 0 (some 7)).2

/-- A concrete DRBG method over variant state List Nat, satisfying the
section 4.2 contract shape: instantiate concatenates the seed inputs,
reseed mixes by concatenation, generate emits the requested number of
bytes and steps the state forward, uninstantiate zeroizes. -/
def unitMeth : RAND_DRBG_METHOD (List Nat) where
  instantiate := fun ent nonce pers => some (ent ++ nonce ++ pers)
  reseed := fun v ent adin => some (v ++ ent ++ adin)
  generate := fun v n adin =>
    some (List.replicate n (v.length + adin.length), v ++ [0])
  uninstantiate := fun _ => []

/-- A concrete READY instance: max_request 64, reseed_interval
disabled (0), fork snapshot 0. -/
def drbgF : RAND_DRBG (List Nat) :=
  { state := DRBG_STATUS.DRBG_READY, max_request := 64,
    reseed_gen_counter := 5, reseed_interval := 0, reseed_time := 10,
    reseed_time_interval := 0, fork_count := 0, reseed_prop_counter := 1,
    reseed_next_counter := 0, vdata := [1] }

/-- A second concrete instance agreeing with drbgF on max_request and
the two reseed intervals but differing everywhere else. -/
def drbgG : RAND_DRBG (List Nat) :=
  { state := DRBG_STATUS.DRBG_UNINITIALISED, max_request := 64,
    reseed_gen_counter := 7, reseed_interval := 0, reseed_time := 99,
    reseed_time_interval := 0, fork_count := 5, reseed_prop_counter := 3,
    reseed_next_counter := 2, vdata := [9, 9] }

/-- A concrete per-call environment whose fork generation 1 differs
from drbgF's snapshot 0. -/
def envF : DrbgEnv :=
  { now := 20, fork_count := 1, parentProp := none,
    entropy := [2, 3], nonce := [4] }

/-! ## Theorems: trace facility -/

/-- C8: the trace-category catalog is a bidirectional name-id lookup:
each table entry (name, num) satisfies
OSSL_trace_get_category_name num = name and
OSSL_trace_get_category_num name = num (matched case-insensitively);
a number outside the table yields NULL and a name matching no entry
(case-insensitively) yields -1. -/
theorem trace_category_catalog_bidirectional :
    (∀ c ∈ trace_categories,
        OSSL_trace_get_category_name c.num = some c.name ∧
        OSSL_trace_get_category_num c.name = c.num) ∧
    (∀ n : Int, (∀ c ∈ trace_categories, c.num ≠ n) →
        OSSL_trace_get_category_name n = none) ∧
    (∀ s : String, (∀ c ∈ trace_categories, strcaseeq s c.name = false) →
        OSSL_trace_get_category_num s = -1) := by
  refine ⟨by decide, ?_, ?_⟩
  · intro n h
    unfold OSSL_trace_get_category_name
    rw [List.find?_eq_none.mpr]
    · rfl
    · intro c hc
      simpa using h c hc
  · intro s h
    unfold OSSL_trace_get_category_num
    rw [List.find?_eq_none.mpr]
    intro c hc
    simp [h c hc]

/-- Closed instance of trace_category_catalog_bidirectional: the number
99 and the name "NO_SUCH_CATEGORY" are not in the table. -/
theorem trace_category_catalog_bidirectional_witness :
    OSSL_trace_get_category_name 99 = none ∧
    OSSL_trace_get_category_num "NO_SUCH_CATEGORY" = -1 :=
  ⟨trace_category_catalog_bidirectional.2.1 99 (by decide),
   trace_category_catalog_bidirectional.2.2 "NO_SUCH_CATEGORY" (by decide)⟩

/-- For an out-of-range category, OSSL_trace_set_channel and
OSSL_trace_set_callback return 0 with the table untouched, but the
prefix and suffix setters return 1: their transcribed guard
`category >= 0 || category < NUM` is a tautology (the source uses ||
where the other setters use the conjunctive range check), so the
failure branch is unreachable and set_trace_data runs at the
out-of-range index — in the C code an out-of-bounds write into
trace_channels. -/
theorem trace_set_range_guards (st : TraceSt) (ch cb : Option Nat)
    (p s : Option String) (cat : Int)
    (hcat : cat < 0 ∨ OSSL_TRACE_CATEGORY_NUM ≤ cat) :
    OSSL_trace_set_channel st cat ch = (false, st) ∧
    OSSL_trace_set_callback st cat cb = (false, st) ∧
    (OSSL_trace_set_pfx st cat p).1 = true ∧
    (OSSL_trace_set_sfx st cat s).1 = true := by
  have htaut : 0 ≤ cat ∨ cat < OSSL_TRACE_CATEGORY_NUM := by
    unfold OSSL_TRACE_CATEGORY_NUM at hcat ⊢
    omega
  refine ⟨?_, ?_, ?_, ?_⟩
  · simp [OSSL_trace_set_channel, hcat]
  · simp [OSSL_trace_set_callback, hcat]
  · simp [OSSL_trace_set_pfx, htaut]
  · simp [OSSL_trace_set_sfx, htaut]

/-- C9 evaluated at the failing input, category -1: the channel and
callback setters return 0 with the table untouched, but the prefix and
suffix setters return 1 (success) because their always-true guard
never rejects, so the claim that all four reject an out-of-range
category fails on the prefix/suffix pair. -/
theorem trace_set_range_check_bug :
    OSSL_trace_set_channel initTraceSt (-1) none = (false, initTraceSt) ∧
    OSSL_trace_set_callback initTraceSt (-1) none = (false, initTraceSt) ∧
    (OSSL_trace_set_pfx initTraceSt (-1) (some "PFX")).1 = true ∧
    (OSSL_trace_set_sfx initTraceSt (-1) (some "SFX")).1 = true :=
  trace_set_range_guards initTraceSt none none (some "PFX") (some "SFX")
    (-1) (by decide)

/-- C10: an in-range category with no attached channel falls back to
the ANY category: OSSL_trace_enabled reports whether ANY has a channel
and OSSL_trace_begin returns ANY's channel (none when ANY has none);
a category with its own channel attached uses its own channel and
prefix. -/
theorem trace_fallback_to_any (st : TraceSt) (cat : Int)
    (h0 : 0 ≤ cat) (h1 : cat < OSSL_TRACE_CATEGORY_NUM) :
    ((st cat).bio = none →
        OSSL_trace_enabled st cat =
          (st OSSL_TRACE_CATEGORY_ANY).bio.isSome ∧
        (OSSL_trace_begin st cat).1 = (st OSSL_TRACE_CATEGORY_ANY).bio) ∧
    (∀ b, (st cat).bio = some b →
        OSSL_trace_enabled st cat = true ∧
        OSSL_trace_begin st cat = ((st cat).bio, (st cat).pfx)) := by
  have hrange : ¬(cat < 0 ∨ OSSL_TRACE_CATEGORY_NUM ≤ cat) := by omega
  constructor
  · intro hnone
    have hres : ossl_trace_get_category st cat = OSSL_TRACE_CATEGORY_ANY := by
      simp [ossl_trace_get_category, hrange, hnone]
    constructor
    · simp [OSSL_trace_enabled, hres]
    · simp [OSSL_trace_begin, hres]
  · intro b hsome
    have hres : ossl_trace_get_category st cat = cat := by
      simp [ossl_trace_get_category, hrange, hsome]
    constructor
    · simp [OSSL_trace_enabled, hres, hsome]
    · simp [OSSL_trace_begin, hres]

/-- Closed instance of trace_fallback_to_any: with a channel 7 on ANY
and none on TLS (category 3), tracing for TLS is enabled and begins on
channel 7. -/
theorem trace_fallback_to_any_witness :
    OSSL_trace_enabled traceStA 3 = true ∧
    (OSSL_trace_begin traceStA 3).1 = some 7 := by
  have h := (trace_fallback_to_any traceStA 3 (by decide) (by decide)).1 rfl
  exact ⟨by rw [h.1]; rfl, by rw [h.2]; rfl⟩

/-! ## Theorems: DRBG lifecycle -/

/-- Field bookkeeping of a successful reseed: counter reset to 1, time
stamped, fork generation re-snapshotted, status and request bound kept. -/
theorem drbg_reseed_success_fields (meth : RAND_DRBG_METHOD V)
    (drbg d1 : RAND_DRBG V) (adin : List Nat) (env : DrbgEnv)
    (h : drbg_reseed meth drbg adin env = (true, d1)) :
    d1.reseed_gen_counter = 1 ∧ d1.reseed_time = env.now ∧
    d1.fork_count = env.fork_count ∧ d1.state = drbg.state ∧
    d1.max_request = drbg.max_request := by
  unfold drbg_reseed at h
  by_cases hs : drbg.state ≠ DRBG_STATUS.DRBG_READY
  · simp [hs] at h
  · simp only [hs, if_false] at h
    rcases hr : meth.reseed drbg.vdata env.entropy adin with _ | v
    · rw [hr] at h
      simp at h
    · rw [hr] at h
      simp only [Prod.mk.injEq, true_and] at h
      subst h
      simp

/-- C1: for a READY instance the Reseed Policy predicate mandates a
reseed exactly when (1) reseed_interval is nonzero and
reseed_gen_counter exceeds it, or (2) reseed_time_interval is nonzero
and the time elapsed since reseed_time exceeds it, or (3) fork_count
differs from the current fork generation, or (4) a live parent's
propagation counter has advanced past the reseed_next_counter
snapshot. -/
theorem reseed_policy_characterisation (drbg : RAND_DRBG V)
    (now fc : Nat) (pProp : Option Nat)
    (hready : drbg.state = DRBG_STATUS.DRBG_READY) :
    reseed_required drbg now fc pProp = true ↔
      ((drbg.reseed_interval ≠ 0 ∧
          drbg.reseed_interval < drbg.reseed_gen_counter) ∨
       (drbg.reseed_time_interval ≠ 0 ∧
          drbg.reseed_time_interval < now - drbg.reseed_time) ∨
       drbg.fork_count ≠ fc ∨
       (∃ p, pProp = some p ∧ drbg.reseed_next_counter < p)) := by
  cases pProp <;>
    simp [reseed_required, Bool.or_eq_true, Bool.and_eq_true,
      decide_eq_true_iff, or_assoc]

/-- Closed instance of reseed_policy_characterisation: with reseed
interval 100 and counter 101 the policy requires a reseed; the other
three conditions are idle. -/
theorem reseed_policy_characterisation_witness :
    reseed_required
      (⟨DRBG_STATUS.DRBG_READY, 64, 101, 100, 5, 0, 3, 1, 0, ()⟩ :
        RAND_DRBG Unit) 5 3 none = true :=
  (reseed_policy_characterisation _ 5 3 none rfl).mpr
    (Or.inl ⟨by decide, by decide⟩)

/-- C2: when the instance's fork_count differs from the current fork
generation the Reseed Policy fires — independently of reseed_interval,
including reseed_interval = 0 — and any successful generate call first
runs a reseed: the result factors through drbg_reseed, and the
post-state carries the re-snapshotted fork count, counter 2 (reset to
1 by the reseed, incremented by the generate) and the fresh reseed
time. -/
theorem fork_mismatch_forces_reseed (meth : RAND_DRBG_METHOD V)
    (drbg : RAND_DRBG V) (outlen : Nat) (adin : List Nat) (env : DrbgEnv)
    (hfork : drbg.fork_count ≠ env.fork_count) :
    reseed_required drbg env.now env.fork_count env.parentProp = true ∧
    ∀ out d2, drbg_generate meth drbg outlen adin env = (some out, d2) →
      (∃ d1, drbg_reseed meth drbg adin env = (true, d1) ∧
          drbg_generate_step meth d1 outlen adin = (some out, d2)) ∧
      d2.fork_count = env.fork_count ∧
      d2.reseed_gen_counter = 2 ∧
      d2.reseed_time = env.now := by
  have hreq : reseed_required drbg env.now env.fork_count env.parentProp
      = true := by
    unfold reseed_required
    simp [hfork]
  refine ⟨hreq, ?_⟩
  intro out d2 h
  unfold drbg_generate at h
  by_cases hs : drbg.state ≠ DRBG_STATUS.DRBG_READY
  · simp [hs] at h
  · simp only [hs, if_false] at h
    by_cases hov : drbg.max_request < outlen
    · simp [hov] at h
    · simp only [hov, if_false, hreq, if_true] at h
      rcases hr : drbg_reseed meth drbg adin env with ⟨ok, d1⟩
      rw [hr] at h
      cases ok
      · simp at h
      · simp only [] at h
        rcases drbg_reseed_success_fields meth drbg d1 adin env hr with
          ⟨hc, ht, hf, _, _⟩
        refine ⟨⟨d1, rfl, h⟩, ?_, ?_, ?_⟩ <;>
          · unfold drbg_generate_step at h
            rcases hg : meth.generate d1.vdata outlen adin with _ | ov <;>
              rw [hg] at h <;> simp at h
            rcases h with ⟨h1, h2⟩
            subst h2
            simp [hc, ht, hf]

/-- Closed instance of fork_mismatch_forces_reseed: drbgF has fork
snapshot 0, envF has fork generation 1 and drbgF's reseed_interval is
0 (disabled); the policy fires and the successful generate leaves the
re-snapshotted fork count. -/
theorem fork_mismatch_forces_reseed_witness :
    reseed_required drbgF envF.now envF.fork_count envF.parentProp = true ∧
    (drbg_generate unitMeth drbgF 4 [] envF).2.fork_count =
      envF.fork_count := by
  have h := fork_mismatch_forces_reseed unitMeth drbgF 4 [] envF (by decide)
  exact ⟨h.1,
    ((h.2 (List.replicate 4 3) (drbg_generate unitMeth drbgF 4 [] envF).2
      (by rfl)).2).1⟩

/-- No automatic reseed is mandated directly after a successful
instantiate evaluated in the same environment: the counter is 1, the
time stamp is fresh, the fork snapshot is current and the parent
snapshot is synced. -/
theorem reseed_not_required_after_instantiate (meth : RAND_DRBG_METHOD V)
    (drbg d1 : RAND_DRBG V) (pers : List Nat) (env : DrbgEnv)
    (h : drbg_instantiate meth drbg pers env = (true, d1)) :
    reseed_required d1 env.now env.fork_count env.parentProp = false := by
  have c1 : ∀ i : Nat, (decide (i ≠ 0) && decide (i < 1)) = false := by
    intro i
    rcases i with _ | i <;> simp
  unfold drbg_instantiate at h
  rcases hi : meth.instantiate env.entropy env.nonce pers with _ | v
  · rw [hi] at h
    simp at h
  · rw [hi] at h
    simp only [Prod.mk.injEq, true_and] at h
    subst h
    unfold reseed_required
    rcases hp : env.parentProp with _ | p <;>
      simp [hp, c1, Nat.sub_self]

/-- C3: while the status is not READY both generate and reseed fail and
leave the instance untouched; generate directly after uninstantiate
fails (state misuse); and uninstantiate followed by a successful
instantiate followed by a well-sized generate succeeds. -/
theorem state_misuse_and_reinstantiate (meth : RAND_DRBG_METHOD V)
    (drbg : RAND_DRBG V) (pers adin : List Nat) (outlen : Nat)
    (env : DrbgEnv) :
    (drbg.state ≠ DRBG_STATUS.DRBG_READY →
        drbg_generate meth drbg outlen adin env = (none, drbg) ∧
        drbg_reseed meth drbg adin env = (false, drbg)) ∧
    drbg_generate meth (drbg_uninstantiate meth drbg) outlen adin env =
      (none, drbg_uninstantiate meth drbg) ∧
    (∀ v out v2,
        meth.instantiate env.entropy env.nonce pers = some v →
        meth.generate v outlen adin = some (out, v2) →
        outlen ≤ drbg.max_request →
        (drbg_instantiate meth (drbg_uninstantiate meth drbg) pers env).1
            = true ∧
        (drbg_generate meth
            (drbg_instantiate meth (drbg_uninstantiate meth drbg) pers
              env).2 outlen adin env).1 = some out) := by
  refine ⟨?_, ?_, ?_⟩
  · intro hs
    exact ⟨by simp [drbg_generate, hs], by simp [drbg_reseed, hs]⟩
  · simp [drbg_generate, drbg_uninstantiate]
  · intro v out v2 hi hg hlen
    have hinst : drbg_instantiate meth (drbg_uninstantiate meth drbg) pers
        env =
        (true, { drbg_uninstantiate meth drbg with
                   vdata := v
                   state := DRBG_STATUS.DRBG_READY
                   reseed_gen_counter := 1
                   reseed_time := env.now
                   fork_count := env.fork_count
                   reseed_prop_counter := 1
                   reseed_next_counter := env.parentProp.getD 0 }) := by
      simp [drbg_instantiate, hi]
    have hnr := reseed_not_required_after_instantiate meth
      (drbg_uninstantiate meth drbg) _ pers env hinst
    rw [hinst]
    refine ⟨rfl, ?_⟩
    simp only [drbg_uninstantiate] at hnr
    simp [drbg_generate, drbg_uninstantiate, hnr, drbg_generate_step, hg,
      not_lt.mpr hlen]

/-- Closed instance of state_misuse_and_reinstantiate: generate on the
uninstantiated drbgF fails, and after re-instantiating it the same
generate succeeds with the full four requested bytes. -/
theorem state_misuse_and_reinstantiate_witness :
    (drbg_generate unitMeth (drbg_uninstantiate unitMeth drbgF) 4 []
        envF).1 = none ∧
    (drbg_generate unitMeth
        (drbg_instantiate unitMeth (drbg_uninstantiate unitMeth drbgF)
          [9] envF).2 4 [] envF).1 = some (List.replicate 4 4) := by
  have h := state_misuse_and_reinstantiate unitMeth drbgF [9] [] 4 envF
  exact ⟨by rw [h.2.1],
    (h.2.2 [2, 3, 4, 9] (List.replicate 4 4) [2, 3, 4, 9, 0] rfl rfl
      (by decide)).2⟩

/-- A successful generate step comes from a successful variant
generate at the same requested length. -/
theorem drbg_generate_step_success (meth : RAND_DRBG_METHOD V)
    (d : RAND_DRBG V) (n : Nat) (a out : List Nat) (d2 : RAND_DRBG V)
    (h : drbg_generate_step meth d n a = (some out, d2)) :
    ∃ v, meth.generate d.vdata n a = some (out, v) := by
  unfold drbg_generate_step at h
  rcases hg : meth.generate d.vdata n a with _ | ⟨o, v⟩
  · rw [hg] at h
    simp at h
  · rw [hg] at h
    simp only [Prod.mk.injEq, Option.some.injEq] at h
    rcases h with ⟨h1, h2⟩
    subst h1
    exact ⟨v, rfl⟩

/-- A successful generate step increments the counter by exactly one. -/
theorem drbg_generate_step_counter (meth : RAND_DRBG_METHOD V)
    (d : RAND_DRBG V) (n : Nat) (a out : List Nat) (d2 : RAND_DRBG V)
    (h : drbg_generate_step meth d n a = (some out, d2)) :
    d2.reseed_gen_counter = d.reseed_gen_counter + 1 := by
  unfold drbg_generate_step at h
  rcases hg : meth.generate d.vdata n a with _ | ⟨o, v⟩
  · rw [hg] at h
    simp at h
  · rw [hg] at h
    simp only [Prod.mk.injEq, Option.some.injEq] at h
    rw [← h.2]

/-- Any successful generate factors through the generate step of some
intermediate instance (the original one, or the transparently reseeded
one). -/
theorem drbg_generate_success_shape (meth : RAND_DRBG_METHOD V)
    (drbg : RAND_DRBG V) (n : Nat) (a : List Nat) (e : DrbgEnv)
    (out : List Nat) (d2 : RAND_DRBG V)
    (h : drbg_generate meth drbg n a e = (some out, d2)) :
    ∃ dmid, drbg_generate_step meth dmid n a = (some out, d2) := by
  unfold drbg_generate at h
  by_cases hs : drbg.state ≠ DRBG_STATUS.DRBG_READY
  · simp [hs] at h
  · simp only [hs, if_false] at h
    by_cases hov : drbg.max_request < n
    · simp [hov] at h
    · simp only [hov, if_false] at h
      by_cases hrr : reseed_required drbg e.now e.fork_count e.parentProp
          = true
      · simp only [hrr, if_true] at h
        rcases hr : drbg_reseed meth drbg a e with ⟨ok, d1⟩
        rw [hr] at h
        cases ok
        · simp at h
        · exact ⟨d1, h⟩
      · simp only [hrr, if_false] at h
        exact ⟨drbg, h⟩

/-- C4: a generate request longer than max_request fails with the
instance state fully unchanged — a retry on the returned state is the
same function of the instance as a fresh generate — and, with a method
meeting the length contract, any successful generate returns exactly
the requested number of bytes (a failing one returns none, so output
is all-or-nothing). -/
theorem generate_oversize_fails_cleanly (meth : RAND_DRBG_METHOD V)
    (drbg : RAND_DRBG V) (outlen : Nat) (adin : List Nat) (env : DrbgEnv)
    (hover : drbg.max_request < outlen) :
    drbg_generate meth drbg outlen adin env = (none, drbg) ∧
    (∀ outlen2 adin2 env2,
        drbg_generate meth (drbg_generate meth drbg outlen adin env).2
          outlen2 adin2 env2 =
          drbg_generate meth drbg outlen2 adin2 env2) ∧
    (MethodOk meth →
      ∀ n a e out d2, drbg_generate meth drbg n a e = (some out, d2) →
        out.length = n) := by
  have hfail : drbg_generate meth drbg outlen adin env = (none, drbg) := by
    by_cases hs : drbg.state ≠ DRBG_STATUS.DRBG_READY <;>
      simp [drbg_generate, hs, hover]
  refine ⟨hfail, ?_, ?_⟩
  · intro outlen2 adin2 env2
    rw [hfail]
  · intro hok n a e out d2 h
    rcases drbg_generate_success_shape meth drbg n a e out d2 h with
      ⟨dmid, hstep⟩
    rcases drbg_generate_step_success meth dmid n a out d2 hstep with
      ⟨v, hgen⟩
    exact hok dmid.vdata n a (out, v) hgen

/-- unitMeth meets the section 4.2 length contract. -/
theorem unitMeth_ok : MethodOk unitMeth := by
  intro v n a r h
  simp only [unitMeth, Option.some.injEq] at h
  rw [← h]
  simp

/-- Closed instance of generate_oversize_fails_cleanly: requesting 100
bytes from drbgF (max_request 64) fails and returns drbgF unchanged;
the successful 4-byte request returns exactly 4 bytes. -/
theorem generate_oversize_fails_cleanly_witness :
    drbg_generate unitMeth drbgF 100 [] envF = (none, drbgF) ∧
    (List.replicate 4 3).length = 4 := by
  have h := generate_oversize_fails_cleanly unitMeth drbgF 100 [] envF
    (by decide)
  exact ⟨h.1, h.2.2 unitMeth_ok 4 [] envF (List.replicate 4 3)
    (drbg_generate unitMeth drbgF 4 [] envF).2 (by rfl)⟩

/-- C5: two instances driven by the same method, agreeing on the
configuration consulted by generate (max_request and the two reseed
intervals), instantiated in the same environment (same entropy, nonce)
with the same personalization, produce identical output sequences on
any identical sequence of generate calls. -/
theorem generate_two_run_determinism (meth : RAND_DRBG_METHOD V)
    (d1 d2 : RAND_DRBG V) (pers : List Nat) (env : DrbgEnv)
    (calls : List (Nat × List Nat × DrbgEnv))
    (hreq : d1.max_request = d2.max_request)
    (hint : d1.reseed_interval = d2.reseed_interval)
    (htint : d1.reseed_time_interval = d2.reseed_time_interval)
    (hok : (drbg_instantiate meth d1 pers env).1 = true) :
    (drbg_generate_seq meth (drbg_instantiate meth d1 pers env).2
        calls).1 =
      (drbg_generate_seq meth (drbg_instantiate meth d2 pers env).2
        calls).1 := by
  rcases hi : meth.instantiate env.entropy env.nonce pers with _ | v
  · simp [drbg_instantiate, hi] at hok
  · have hpost : (drbg_instantiate meth d1 pers env).2 =
        (drbg_instantiate meth d2 pers env).2 := by
      cases d1
      cases d2
      simp_all [drbg_instantiate]
    rw [hpost]

/-- Closed instance of generate_two_run_determinism: drbgF and drbgG
share max_request and both reseed intervals but differ in status,
counters, timestamps, fork snapshot and variant state; after
instantiation with the same inputs their 3-byte outputs coincide. -/
theorem generate_two_run_determinism_witness :
    (drbg_generate_seq unitMeth
        (drbg_instantiate unitMeth drbgF [1] envF).2 [(3, [], envF)]).1 =
      (drbg_generate_seq unitMeth
        (drbg_instantiate unitMeth drbgG [1] envF).2 [(3, [], envF)]).1 :=
  generate_two_run_determinism unitMeth drbgF drbgG [1] envF
    [(3, [], envF)] rfl rfl rfl rfl

/-- C6: a successful instantiate sets reseed_gen_counter to 1,
reseed_time to now, snapshots fork_count and moves to READY; a
successful reseed resets reseed_gen_counter to 1 and reseed_time to
now; a successful generate increments reseed_gen_counter by one —
relative to the value left by the transparently executed reseed (1)
when the Reseed Policy mandated one, otherwise to the prior value. -/
theorem lifecycle_counter_discipline (meth : RAND_DRBG_METHOD V)
    (drbg : RAND_DRBG V) (pers adin : List Nat) (outlen : Nat)
    (env : DrbgEnv) :
    (∀ d1, drbg_instantiate meth drbg pers env = (true, d1) →
        d1.reseed_gen_counter = 1 ∧ d1.reseed_time = env.now ∧
        d1.fork_count = env.fork_count ∧
        d1.state = DRBG_STATUS.DRBG_READY) ∧
    (∀ d1, drbg_reseed meth drbg adin env = (true, d1) →
        d1.reseed_gen_counter = 1 ∧ d1.reseed_time = env.now) ∧
    (∀ out d1, drbg_generate meth drbg outlen adin env = (some out, d1) →
        d1.reseed_gen_counter =
          (if reseed_required drbg env.now env.fork_count env.parentProp
            then 1 else drbg.reseed_gen_counter) + 1) := by
  refine ⟨?_, ?_, ?_⟩
  · intro d1 h
    unfold drbg_instantiate at h
    rcases hi : meth.instantiate env.entropy env.nonce pers with _ | v
    · rw [hi] at h
      simp at h
    · rw [hi] at h
      simp only [Prod.mk.injEq, true_and] at h
      subst h
      simp
  · intro d1 h
    rcases drbg_reseed_success_fields meth drbg d1 adin env h with
      ⟨a, b, _⟩
    exact ⟨a, b⟩
  · intro out d1 h
    unfold drbg_generate at h
    by_cases hs : drbg.state ≠ DRBG_STATUS.DRBG_READY
    · simp [hs] at h
    · simp only [hs, if_false] at h
      by_cases hov : drbg.max_request < outlen
      · simp [hov] at h
      · simp only [hov, if_false] at h
        by_cases hrr : reseed_required drbg env.now env.fork_count
            env.parentProp = true
        · simp only [hrr, if_true] at h
          rcases hr : drbg_reseed meth drbg adin env with ⟨ok, dmid⟩
          rw [hr] at h
          cases ok
          · simp at h
          · have hc := (drbg_reseed_success_fields meth drbg dmid adin
              env hr).1
            rw [drbg_generate_step_counter meth dmid outlen adin out d1 h,
              hc, if_pos hrr]
        · simp only [hrr, if_false] at h
          rw [drbg_generate_step_counter meth drbg outlen adin out d1 h,
            if_neg hrr]

/-- Closed instance of lifecycle_counter_discipline: instantiating
drbgF resets the counter to 1; the fork-mismatch generate on drbgF
reseeds (resetting to 1) and increments to 2. -/
theorem lifecycle_counter_discipline_witness :
    (drbg_instantiate unitMeth drbgF [1] envF).2.reseed_gen_counter = 1 ∧
    (drbg_generate unitMeth drbgF 4 [] envF).2.reseed_gen_counter = 2 := by
  have h := lifecycle_counter_discipline unitMeth drbgF [1] [] 4 envF
  refine ⟨(h.1 (drbg_instantiate unitMeth drbgF [1] envF).2 (by rfl)).1, ?_⟩
  have h3 := h.2.2 (List.replicate 4 3)
    (drbg_generate unitMeth drbgF 4 [] envF).2 (by rfl)
  rw [h3]
  decide

/-- A single pool operation preserves the pool bounds invariant, given
the at-most-8-bits-per-byte crediting discipline. -/
theorem applyPoolOp_inv (p : rand_pool_st) (op : PoolOp)
    (hp : pool_inv p) (hop : poolOpCredOk op) :
    pool_inv (applyPoolOp p op) := by
  rcases op with ⟨bytes, ent⟩ | _
  · unfold applyPoolOp rand_pool_add
    by_cases h : p.max_len < p.buffer.length + bytes.length
    · simpa [h] using hp
    · simp only [h, if_false, Option.getD_some]
      unfold pool_inv at hp ⊢
      unfold poolOpCredOk at hop
      simp only [List.length_append]
      omega
  · unfold applyPoolOp rand_pool_release
    by_cases h : p.attached
    · simpa [h] using hp
    · unfold pool_inv at hp ⊢
      simp [h]

/-- A sequence of well-credited pool operations preserves the pool
bounds invariant. -/
theorem applyPoolOps_inv (p : rand_pool_st) (ops : List PoolOp)
    (hp : pool_inv p) (hops : ∀ op ∈ ops, poolOpCredOk op) :
    pool_inv (applyPoolOps p ops) := by
  induction ops generalizing p with
  | nil => exact hp
  | cons op rest ih =>
      exact ih (applyPoolOp p op)
        (applyPoolOp_inv p op hp (hops op (by simp)))
        (fun o ho => hops o (by simp [ho]))

/-- C7: freshly allocated and attached pools satisfy len ≤ max_len and
entropy ≤ 8*len, every sequence of well-credited add/release
operations preserves the invariant, and add appends the bytes and
accumulates the credit, failing exactly when the appended length would
exceed max_len (leaving the pool as it was, since a failed add is the
identity under applyPoolOp). -/
theorem pool_bounds_invariant :
    (∀ minl maxl, pool_inv (rand_pool_new minl maxl)) ∧
    (∀ buf ent, ent ≤ 8 * buf.length → pool_inv (rand_pool_attach buf ent)) ∧
    (∀ p ops, pool_inv p → (∀ op ∈ ops, poolOpCredOk op) →
        pool_inv (applyPoolOps p ops)) ∧
    (∀ p bytes ent, rand_pool_add p bytes ent = none ↔
        p.max_len < p.buffer.length + bytes.length) ∧
    (∀ p bytes ent p2, rand_pool_add p bytes ent = some p2 →
        p2.buffer = p.buffer ++ bytes ∧ p2.entropy = p.entropy + ent) := by
  refine ⟨?_, ?_, ?_, ?_, ?_⟩
  · intro minl maxl
    exact ⟨by simp [rand_pool_new], by simp [rand_pool_new]⟩
  · intro buf ent hent
    exact ⟨by simp [rand_pool_attach], by simpa [rand_pool_attach] using hent⟩
  · exact applyPoolOps_inv
  · intro p bytes ent
    unfold rand_pool_add
    by_cases h : p.max_len < p.buffer.length + bytes.length <;> simp [h]
  · intro p bytes ent p2 h
    unfold rand_pool_add at h
    by_cases hc : p.max_len < p.buffer.length + bytes.length
    · simp [hc] at h
    · simp only [hc, if_false, Option.some.injEq] at h
      rw [← h]
      simp

/-- Closed instance of pool_bounds_invariant: a pool of max_len 16
after a well-credited 2-byte add (16 bits) and a release still
satisfies the bounds invariant. -/
theorem pool_bounds_invariant_witness :
    pool_inv (applyPoolOps (rand_pool_new 4 16)
      [PoolOp.add [1, 2] 16, PoolOp.release]) :=
  pool_bounds_invariant.2.2.1 (rand_pool_new 4 16)
    [PoolOp.add [1, 2] 16, PoolOp.release]
    ⟨by simp [rand_pool_new], by simp [rand_pool_new]⟩
    (by
      intro op hop
      rcases List.mem_cons.mp hop with rfl | hop2
      · show (16 : Nat) ≤ 8 * List.length [1, 2]
        norm_num
      · rcases List.mem_cons.mp hop2 with rfl | h3
        · trivial
        · cases h3)

end OpenSSL
